import Mathlib

/-!
Verification development for `get_urls.py`, a bulk URL downloader.

The program validates each URL with `validators.url`, issues a GET through a
shared `requests.Session` whose adapters carry a `urllib3.util.retry.Retry`
policy, logs per-URL failures, and writes successful bodies to a file named
after the final path segment of the URL.

The embedding models, from their published sources, the third-party behaviour
the script leans on: the `validators` URL regular expression, the keys of
`requests.status_codes._codes`, the `urllib3` retry loop, and
`requests.Session.mount`.
-/

/-! ## A regular-expression engine with character classes

`validators.url` is a single anchored regular expression; `re.match` on an
anchored pattern is language membership.  We embed the pattern as a regular
expression over `Char` with character classes given by boolean predicates and
decide membership with Brzozowski derivatives.
-/

/-- Regular expressions over `Char` with predicate character classes. -/
inductive Rx : Type where
  | emp : Rx
  | eps : Rx
  | cls : (Char → Bool) → Rx
  | cat : Rx → Rx → Rx
  | alt : Rx → Rx → Rx
  | star : Rx → Rx

/-- Does the regular expression accept the empty string? -/
def rxNullable : Rx → Bool
  | .emp => false
  | .eps => true
  | .cls _ => false
  | .cat r1 r2 => rxNullable r1 && rxNullable r2
  | .alt r1 r2 => rxNullable r1 || rxNullable r2
  | .star _ => true

/-- Brzozowski derivative of a regular expression by one character. -/
def rxDeriv : Rx → Char → Rx
  | .emp, _ => .emp
  | .eps, _ => .emp
  | .cls p, c => if p c then .eps else .emp
  | .cat r1 r2, c =>
    if rxNullable r1 then .alt (.cat (rxDeriv r1 c) r2) (rxDeriv r2 c)
    else .cat (rxDeriv r1 c) r2
  | .alt r1 r2, c => .alt (rxDeriv r1 c) (rxDeriv r2 c)
  | .star r, c => .cat (rxDeriv r c) (.star r)

/-- Derivative-based matcher: does the regular expression accept the word? -/
def rxMatch : Rx → List Char → Bool
  | r, [] => rxNullable r
  | r, c :: cs => rxMatch (rxDeriv r c) cs

/-- Single literal character (a one-character class). -/
def rxChar (c : Char) : Rx := .cls (fun x => x == c)

/-- Literal word, as a list of characters. -/
def rxLitL : List Char → Rx
  | [] => .eps
  | c :: cs => .cat (rxChar c) (rxLitL cs)

/-- Literal word, from a string. -/
def rxLit (s : String) : Rx := rxLitL s.data

/-- Zero or one occurrence, the regex postfix question mark. -/
def rxOpt (r : Rx) : Rx := .alt r .eps

/-- One or more occurrences, the regex postfix plus. -/
def rxSome (r : Rx) : Rx := .cat r (.star r)

/-- Exactly `n` occurrences, the regex `r{n}`. -/
def rxRep (r : Rx) : Nat → Rx
  | 0 => .eps
  | n + 1 => .cat r (rxRep r n)

/-- At most `n` occurrences, the regex `r{0,n}`. -/
def rxUpTo (r : Rx) : Nat → Rx
  | 0 => .eps
  | n + 1 => .alt .eps (.cat r (rxUpTo r n))

/-- Between `lo` and `hi` occurrences, the regex `r{lo,hi}`. -/
def rxRange (r : Rx) (lo hi : Nat) : Rx := .cat (rxRep r lo) (rxUpTo r (hi - lo))

/-- Alternation of a list of regular expressions. -/
def rxAltL : List Rx → Rx
  | [] => .emp
  | [r] => r
  | r :: rs => .alt r (rxAltL rs)

/-! ## The `validators.url` regular expression

`get_urls.py` line 88 calls `validators.url(url)`.  The `validators` library
(release 0.20.0, the regex-based implementation) decides this with a single
anchored pattern compiled with `re.IGNORECASE | re.UNICODE`.  We translate the
pattern component by component.  `re.IGNORECASE` is modelled by matching the
lowercased input against the lowercase pattern (exact for the ASCII letters the
pattern uses).  `\d` and `\S` are modelled as ASCII digits and non-whitespace;
the non-ASCII code points Python would additionally accept there are not
exercised by any claim.  The trailing-newline tolerance of the `$` anchor is
likewise not modelled.
-/

/-- Is `c.toNat` in the closed interval from `lo` to `hi`? -/
def chrBtw (lo hi : Nat) (c : Char) : Bool := Nat.ble lo c.toNat && Nat.ble c.toNat hi

/-- Is `c` the character with code point `n`? -/
def chrIs (n : Nat) (c : Char) : Bool := Nat.beq c.toNat n

/-- Class `[-a-z¡-￿0-9._~%!$&'()*+,;=:]` (user part of authentication). -/
def userChar1 (c : Char) : Bool :=
  chrIs 45 c || chrBtw 97 122 c || chrBtw 161 65535 c || chrBtw 48 57 c ||
  chrIs 46 c || chrIs 95 c || chrIs 126 c || chrIs 37 c || chrIs 33 c || chrIs 36 c ||
  chrIs 38 c || chrIs 39 c || chrIs 40 c || chrIs 41 c || chrIs 42 c || chrIs 43 c ||
  chrIs 44 c || chrIs 59 c || chrIs 61 c || chrIs 58 c

/-- Class `[-a-z0-9._~%!$&'()*+,;=:]` (password part of authentication). -/
def userChar2 (c : Char) : Bool :=
  chrIs 45 c || chrBtw 97 122 c || chrBtw 48 57 c ||
  chrIs 46 c || chrIs 95 c || chrIs 126 c || chrIs 37 c || chrIs 33 c || chrIs 36 c ||
  chrIs 38 c || chrIs 39 c || chrIs 40 c || chrIs 41 c || chrIs 42 c || chrIs 43 c ||
  chrIs 44 c || chrIs 59 c || chrIs 61 c || chrIs 58 c

/-- Class `[a-z¡-￿\U00010000-\U0010FFFF0-9]` (host and domain labels). -/
def hostChar (c : Char) : Bool :=
  chrBtw 97 122 c || chrBtw 161 65535 c || chrBtw 65536 1114111 c || chrBtw 48 57 c

/-- Class `[a-z¡-￿\U00010000-\U0010FFFF]` (letters-only TLD). -/
def tldChar (c : Char) : Bool :=
  chrBtw 97 122 c || chrBtw 161 65535 c || chrBtw 65536 1114111 c

/-- Class `[-a-z¡-￿\U00010000-\U0010FFFF0-9._~%!$&'()*+,;=:@/]` (path). -/
def pathChar (c : Char) : Bool :=
  userChar1 c || chrBtw 65536 1114111 c || chrIs 64 c || chrIs 47 c

/-- Class `\S` (query and fragment contents). -/
def nonSpaceChar (c : Char) : Bool := !c.isWhitespace

/-- Class `[0-9a-zA-Z]` (IPv6 zone index). -/
def zoneChar (c : Char) : Bool := chrBtw 48 57 c || chrBtw 97 122 c || chrBtw 65 90 c

/-- Class `\d`. -/
def rxDigit : Rx := .cls (chrBtw 48 57)

/-- Class `[0-9a-fA-F]`. -/
def rxHex : Rx := .cls (fun c => chrBtw 48 57 c || chrBtw 97 102 c || chrBtw 65 70 c)

/-- Pattern `(?:\.(?:1?\d{1,2}|2[0-4]\d|25[0-5]))` (`ip_middle_octet`). -/
def rxIpMiddleOctet : Rx :=
  .cat (rxChar '.') (rxAltL [
    .cat (rxOpt (rxChar '1')) (rxRange rxDigit 1 2),
    .cat (rxChar '2') (.cat (.cls (chrBtw 48 52)) rxDigit),
    .cat (rxLit "25") (.cls (chrBtw 48 53))])

/-- Pattern `(?:\.(?:[1-9]\d?|1\d\d|2[0-4]\d|25[0-4]))` (`ip_last_octet`). -/
def rxIpLastOctet : Rx :=
  .cat (rxChar '.') (rxAltL [
    .cat (.cls (chrBtw 49 57)) (rxOpt rxDigit),
    .cat (rxChar '1') (.cat rxDigit rxDigit),
    .cat (rxChar '2') (.cat (.cls (chrBtw 48 52)) rxDigit),
    .cat (rxLit "25") (.cls (chrBtw 48 52))])

/-- The `private_ip` alternative: private and local IPv4 networks. -/
def rxPrivateIp : Rx :=
  rxAltL [
    .cat (.alt (rxLit "10") (rxLit "127"))
      (.cat (rxRep rxIpMiddleOctet 2) rxIpLastOctet),
    .cat (.alt (rxLit "169.254") (rxLit "192.168"))
      (.cat rxIpMiddleOctet rxIpLastOctet),
    .cat (rxLit "172.")
      (.cat (rxAltL [
          .cat (rxChar '1') (.cls (chrBtw 54 57)),
          .cat (rxChar '2') rxDigit,
          .cat (rxChar '3') (.cls (chrBtw 48 49))])
        (.cat rxIpMiddleOctet rxIpLastOctet))]

/-- The `private_host` alternative: `(?:localhost)`. -/
def rxPrivateHost : Rx := rxLit "localhost"

/-- The `public_ip` alternative: dotted IPv4 excluding reserved leading octets. -/
def rxPublicIp : Rx :=
  .cat (rxAltL [
      .cat (.cls (chrBtw 49 57)) (rxOpt rxDigit),
      .cat (rxChar '1') (.cat rxDigit rxDigit),
      .cat (rxChar '2') (.cat (.cls (chrBtw 48 49)) rxDigit),
      .cat (rxLit "22") (.cls (chrBtw 48 51))])
    (.cat (rxRep rxIpMiddleOctet 2) rxIpLastOctet)

/-- IPv4 octet `(25[0-5]|(2[0-4]|1{0,1}[0-9]){0,1}[0-9])` used inside the IPv6
alternatives for mapped and embedded addresses. -/
def rxMappedV4Octet : Rx :=
  .alt (.cat (rxLit "25") (.cls (chrBtw 48 53)))
    (.cat (rxOpt (.alt (.cat (rxChar '2') (.cls (chrBtw 48 52)))
                       (.cat (rxOpt (rxChar '1')) rxDigit)))
      rxDigit)

/-- Dotted IPv4 `((octet)\.){3,3}(octet)` inside the IPv6 alternatives. -/
def rxMappedV4 : Rx :=
  .cat (rxRep (.cat rxMappedV4Octet (rxChar '.')) 3) rxMappedV4Octet

/-- One to four hex digits, `[0-9a-fA-F]{1,4}`. -/
def rxHexQ : Rx := rxRange rxHex 1 4

/-- The bracketed IPv6 alternative of the host group, `\[( ... )\]`, with the
twelve alternatives of the pattern in source order. -/
def rxIpv6 : Rx :=
  .cat (rxChar '[')
    (.cat (rxAltL [
        .cat (rxRep (.cat rxHexQ (rxChar ':')) 7) rxHexQ,
        .cat (rxRange (.cat rxHexQ (rxChar ':')) 1 7) (rxChar ':'),
        .cat (rxRange (.cat rxHexQ (rxChar ':')) 1 6) (.cat (rxChar ':') rxHexQ),
        .cat (rxRange (.cat rxHexQ (rxChar ':')) 1 5) (rxRange (.cat (rxChar ':') rxHexQ) 1 2),
        .cat (rxRange (.cat rxHexQ (rxChar ':')) 1 4) (rxRange (.cat (rxChar ':') rxHexQ) 1 3),
        .cat (rxRange (.cat rxHexQ (rxChar ':')) 1 3) (rxRange (.cat (rxChar ':') rxHexQ) 1 4),
        .cat (rxRange (.cat rxHexQ (rxChar ':')) 1 2) (rxRange (.cat (rxChar ':') rxHexQ) 1 5),
        .cat rxHexQ (.cat (rxChar ':') (rxRange (.cat (rxChar ':') rxHexQ) 1 6)),
        .cat (rxChar ':') (.alt (rxRange (.cat (rxChar ':') rxHexQ) 1 7) (rxChar ':')),
        .cat (rxLit "fe80:")
          (.cat (rxUpTo (.cat (rxChar ':') (rxUpTo rxHex 4)) 4)
            (.cat (rxChar '%') (rxSome (.cls zoneChar)))),
        .cat (rxLit "::")
          (.cat (rxOpt (.cat (rxLit "ffff")
              (.cat (rxOpt (.cat (rxChar ':') (rxRange (rxChar '0') 1 4))) (rxChar ':'))))
            rxMappedV4),
        .cat (rxRange (.cat rxHexQ (rxChar ':')) 1 4) (.cat (rxChar ':') rxMappedV4)])
      (rxChar ']'))

/-- One host or domain label, `(?:(?:xn--)|[hostChar]-?)*[hostChar]+`. -/
def rxLabel : Rx :=
  .cat (.star (.alt (rxLit "xn--") (.cat (.cls hostChar) (rxOpt (rxChar '-')))))
    (rxSome (.cls hostChar))

/-- TLD identifier, `(?:\.(?:(?:xn--[hostChar]{1,59})|(?:[tldChar]{2,63})))`. -/
def rxTld : Rx :=
  .cat (rxChar '.')
    (.alt (.cat (rxLit "xn--") (rxRange (.cls hostChar) 1 59))
      (rxRange (.cls tldChar) 2 63))

/-- The host-name alternative: leading label, further dotted labels, TLD. -/
def rxHostName : Rx :=
  .cat rxLabel (.cat (.star (.cat (rxChar '.') rxLabel)) rxTld)

/-- The five-way host group of the pattern. -/
def rxHostGroup : Rx :=
  rxAltL [rxPrivateIp, rxPrivateHost, rxPublicIp, rxIpv6, rxHostName]

/-- Optional authentication,
`(?:[userChar1]+(?::[userChar2]*)?@)?`. -/
def rxUserinfo : Rx :=
  rxOpt (.cat (rxSome (.cls userChar1))
    (.cat (rxOpt (.cat (rxChar ':') (.star (.cls userChar2)))) (rxChar '@')))

/-- Protocol identifier, `(?:(?:https?|ftp)://)`. -/
def rxScheme : Rx :=
  .cat (.alt (.cat (rxLit "http") (rxOpt (rxChar 's'))) (rxLit "ftp")) (rxLit "://")

/-- Everything after the protocol identifier: authentication, host group,
optional port `(?::\d{2,5})?`, optional path `(?:/[pathChar]*)?`, optional
query `(?:\?\S*)?`, optional fragment `(?:#\S*)?`. -/
def rxAfterScheme : Rx :=
  .cat rxUserinfo
    (.cat rxHostGroup
      (.cat (rxOpt (.cat (rxChar ':') (rxRange rxDigit 2 5)))
        (.cat (rxOpt (.cat (rxChar '/') (.star (.cls pathChar))))
          (.cat (rxOpt (.cat (rxChar '?') (.star (.cls nonSpaceChar))))
            (rxOpt (.cat (rxChar '#') (.star (.cls nonSpaceChar))))))))

/-- The whole anchored URL pattern of `validators.url`. -/
def rxUrl : Rx := .cat rxScheme rxAfterScheme

/-- Model of `validators.url` (validators 0.20.0): the string is truthy for
`if not validators.url(url)` exactly when the anchored pattern matches it.
`re.IGNORECASE` is rendered by lowercasing the input. -/
def validators_url (s : String) : Bool := rxMatch rxUrl (s.data.map Char.toLower)

/-! ## Status-code sets (`get_urls.py` lines 21-25)

`ERROR_CODES` is built at module load by filtering the keys of
`requests.status_codes._codes`; the key list below is transcribed from
`requests/status_codes.py` in source order.
-/

/-- `MAX_THREADS = 100`. -/
def MAX_THREADS : Nat := 100

/-- `MAX_RETRY_FOR_SESSION = 5`. -/
def MAX_RETRY_FOR_SESSION : Nat := 5

/-- `BACK_OFF_FACTOR = 0.5`. -/
def BACK_OFF_FACTOR : ℚ := 1 / 2

/-- `SPECIAL_ERROR_CODES = [403, 404]`. -/
def SPECIAL_ERROR_CODES : List Nat := [403, 404]

/-- The keys of the dict `requests.status_codes._codes`, in source order. -/
def requests_status_codes : List Nat :=
  [100, 101, 102, 103, 122,
   200, 201, 202, 203, 204, 205, 206, 207, 208, 226,
   300, 301, 302, 303, 304, 305, 306, 307, 308,
   400, 401, 402, 403, 404, 405, 406, 407, 408, 409, 410, 411, 412, 413, 414,
   415, 416, 417, 418, 421, 422, 423, 424, 425, 426, 428, 429, 431, 444, 449,
   450, 451, 499,
   500, 501, 502, 503, 504, 505, 506, 507, 509, 510, 511]

/-- `ERROR_CODES = tuple(code for code in requests.status_codes._codes
if code >= 400 and code not in SPECIAL_ERROR_CODES)`. -/
def ERROR_CODES : List Nat :=
  requests_status_codes.filter
    (fun code => decide (400 ≤ code) && !(SPECIAL_ERROR_CODES.contains code))

/-- Specification-side set: the general retryable set as the spec words it,
all 4xx/5xx status codes other than the special codes.  Used only to compare
the spec with `ERROR_CODES`. -/
def spec_retryable (code : Nat) : Bool :=
  decide (400 ≤ code) && decide (code ≤ 599) && !(SPECIAL_ERROR_CODES.contains code)

/-! ## The fetch step (`session.get` under a mounted `Retry`)

`download` mounts `HTTPAdapter(max_retries=Retry(total=retries,
backoff_factor=back_off_factor, status_forcelist=status_force_list))` and
calls `session.get(url)`.  For a GET (an allowed method) with only `total`
set, `urllib3.util.retry.Retry` decrements `total` once per retried attempt —
a transport error, or a response whose status is in `status_forcelist` — and
`Retry.increment` raises `MaxRetryError` when `total` drops below zero.
`requests.adapters.HTTPAdapter.send` turns a `MaxRetryError` whose reason is a
`ResponseError` (status-forcelist exhaustion) into
`requests.exceptions.RetryError`, and connection-level exhaustion into
`requests.exceptions.ConnectionError`.  So `Retry(total=t)` performs up to
`t + 1` attempts.  The network is a function from the attempt index to that
attempt's result; redirects and response headers are not modelled.
-/

/-- Result of one network attempt: a transport-level connection failure, or an
HTTP response with a status code and a byte body. -/
inductive AttemptResult : Type where
  | transportError : AttemptResult
  | response : Nat → String → AttemptResult
deriving DecidableEq

/-- How `session.get(url)` ends: a returned response, a raised
`requests.exceptions.ConnectionError`, or a raised
`requests.exceptions.RetryError`. -/
inductive FetchResult : Type where
  | ok : Nat → String → FetchResult
  | connectionError : FetchResult
  | retryError : FetchResult
deriving DecidableEq

/-- The retry loop from attempt index `k` with `t` retries left on the
`total` counter; returns the result together with the number of network
attempts performed in all. -/
def fetchFrom (server : Nat → AttemptResult) (forcelist : List Nat) (k : Nat) :
    Nat → FetchResult × Nat
  | 0 =>
    match server k with
    | .transportError => (.connectionError, k + 1)
    | .response code body =>
      if code ∈ forcelist then (.retryError, k + 1) else (.ok code body, k + 1)
  | t + 1 =>
    match server k with
    | .transportError => fetchFrom server forcelist (k + 1) t
    | .response code body =>
      if code ∈ forcelist then fetchFrom server forcelist (k + 1) t
      else (.ok code body, k + 1)

/-- `session.get(url)` with `Retry(total=total, status_forcelist=forcelist)`
mounted: result and total number of network attempts. -/
def fetch (server : Nat → AttemptResult) (total : Nat) (forcelist : List Nat) :
    FetchResult × Nat :=
  fetchFrom server forcelist 0 total

/-! ## Sessions and adapters (`requests.Session`) -/

/-- The retry policy carried by a mounted adapter: the three values
`download` passes to `Retry`. -/
structure RetryPolicy where
  total : Nat
  backoff_factor : ℚ
  status_forcelist : List Nat
deriving DecidableEq

/-- A `requests.Session`, reduced to its ordered adapter registry
(prefix to mounted retry policy). -/
structure Session where
  adapters : List (String × RetryPolicy)
deriving DecidableEq

/-- Replace the binding for `pre` in place, or append it. -/
def mountGo : List (String × RetryPolicy) → String → RetryPolicy →
    List (String × RetryPolicy)
  | [], pre, a => [(pre, a)]
  | kv :: rest, pre, a =>
    if kv.1 = pre then (pre, a) :: rest else kv :: mountGo rest pre a

/-- `Session.mount`: store the adapter under its prefix (in place for an
existing key), then move every strictly shorter key behind it, as
`requests.sessions.Session.mount` reorders its adapter dict. -/
def Session.mount (s : Session) (pre : String) (a : RetryPolicy) : Session :=
  let updated := mountGo s.adapters pre a
  ⟨updated.filter (fun kv => !(decide (kv.1.length < pre.length))) ++
    updated.filter (fun kv => decide (kv.1.length < pre.length))⟩

/-- A fresh `requests.Session()`: default adapters for the two prefixes
(`HTTPAdapter()` has `max_retries = Retry(0, read=False)`, rendered as the
zero policy). -/
def Session.new : Session :=
  ⟨[("https://", ⟨0, 0, []⟩), ("http://", ⟨0, 0, []⟩)]⟩

/-! ## The download task (`get_urls.py` lines 81-110) -/

/-- One line on the logging surface; the three `logging.error` calls of
`download`, keeping their arguments. -/
inductive LogLine : Type where
  | invalidURL : String → LogLine
  | connectionError : String → LogLine
  | statusError : Nat → String → LogLine
deriving DecidableEq

/-- How the `download` call ends: a normal return, or an exception escaping
it — `requests.exceptions.RetryError` from `session.get`, `IndexError` from
`url.rsplit("/", 1)[1]` on a slash-free string, or the `OSError` that
`open(file_name, "wb")` raises when `file_name` is empty
(`FileNotFoundError: [Errno 2] No such file or directory: ''`). -/
inductive TaskExit : Type where
  | returned : TaskExit
  | raisedRetryError : TaskExit
  | raisedIndexError : TaskExit
  | raisedFileError : TaskExit
deriving DecidableEq

/-- Everything observable about one `download` call: log lines emitted, files
written as (path relative to the process working directory, content), number
of network attempts, how the call ended, and the session afterwards. -/
structure DownloadEffect where
  logs : List LogLine
  writes : List (String × String)
  attempts : Nat
  exit : TaskExit
  session : Session
deriving DecidableEq

/-- The characters after the last slash, `none` when there is no slash
(where Python's `url.rsplit("/", 1)[1]` raises `IndexError`). -/
def rsplitTail : List Char → Option (List Char)
  | [] => none
  | c :: cs =>
    match rsplitTail cs with
    | some t => some t
    | none => if c = '/' then some cs else none

/-- The file name `download` derives, `url.rsplit("/", 1)[1]`. -/
def fileNameOf (url : String) : Option String :=
  (rsplitTail url.data).map (fun l => ⟨l⟩)

/-- `download(url, retries, back_off_factor, status_force_list, session)`
against a given network.  Mirrors `get_urls.py` lines 81-110: validate,
mount two adapters carrying the `Retry` policy on the shared session, GET
with the retry loop, catch only `requests.exceptions.ConnectionError`, drop
responses with a special status code, and write the body to the file named
by the final path segment in the process working directory. -/
def download (url : String) (retries : Nat) (back_off_factor : ℚ)
    (status_force_list : List Nat) (session : Session)
    (server : Nat → AttemptResult) : DownloadEffect :=
  if validators_url url = false then
    ⟨[.invalidURL url], [], 0, .returned, session⟩
  else
    let retry : RetryPolicy := ⟨retries, back_off_factor, status_force_list⟩
    let session1 := (session.mount "https://" retry).mount "http://" retry
    match fetch server retries status_force_list with
    | (.connectionError, n) => ⟨[.connectionError url], [], n, .returned, session1⟩
    | (.retryError, n) => ⟨[], [], n, .raisedRetryError, session1⟩
    | (.ok code body, n) =>
      if code ∈ SPECIAL_ERROR_CODES then
        ⟨[.statusError code url], [], n, .returned, session1⟩
      else
        match rsplitTail url.data with
        | none => ⟨[], [], n, .raisedIndexError, session1⟩
        | some name =>
          if name = [] then ⟨[], [], n, .raisedFileError, session1⟩
          else ⟨[], [(⟨name⟩, body)], n, .returned, session1⟩

/-! ## The batch run (`get_urls.py` lines 113-166)

`main` parses `-i` and `-d`, checks both paths exist, reads the URL list, and
submits `download(url, session=session)` for every URL to a
`ThreadPoolExecutor` sharing one `requests.Session`.  The destination
directory is never handed to `download` and the working directory is never
changed, so every write lands in the process working directory.  The worker
threads are serialised here; each task sees the session as the previous one
left it (all tasks mount the same policy, so interleavings produce the same
per-task behaviour).
-/

/-- Run the download task for every URL in order, threading the shared
session; the network is a function from URL and attempt index to the
attempt's result. -/
def runAll (urls : List String) (net : String → Nat → AttemptResult)
    (session : Session) : List DownloadEffect :=
  match urls with
  | [] => []
  | u :: rest =>
    let e := download u MAX_RETRY_FOR_SESSION BACK_OFF_FACTOR ERROR_CODES session (net u)
    e :: runAll rest net e.session

/-- The file writes a whole run produces, as paths relative to the process
working directory.  The destination directory from `-d` is a parameter of
the run but, as in `main`, reaches no write. -/
def mainWrites (directory : String) (urls : List String)
    (net : String → Nat → AttemptResult) : List (String × String) :=
  ((runAll urls net Session.new).map (fun e => e.writes)).flatten

/-- Modelled from Python 3.8 `concurrent.futures` semantics for the
`KeyboardInterrupt` path of `main`: every URL was already submitted to the
executor before the interrupt can be observed; `executor.shutdown(wait=False)`
does not cancel pending futures (the source notes `cancel_futures=True` needs
Python 3.9), worker threads keep draining the queue, and the interpreter
joins them at exit.  So every submitted task runs to completion and the
number of tasks already started when the interrupt arrives does not affect
which tasks produce outcomes. -/
def interruptedOutcomes (urls : List String) (startedAtInterrupt : Nat)
    (net : String → Nat → AttemptResult) : List DownloadEffect :=
  runAll urls net Session.new

/-! ## Specification-side URL well-formedness

Used only to compare the spec's description of the Validator with
`validators_url`: the spec asks for an absolute URL with scheme http or https
and a non-empty host. -/

/-- The host of an absolute URL body: the authority is the part before the
first of `/`, `?`, `#`; the userinfo before the last `@` and a trailing
`:port` are stripped. -/
def spec_host (rest : List Char) : List Char :=
  let auth := rest.takeWhile (fun c => !(c == '/' || c == '?' || c == '#'))
  let afterUser :=
    if auth.contains '@' then (auth.reverse.takeWhile (fun c => !(c == '@'))).reverse
    else auth
  if afterUser.contains ':' then
    (afterUser.reverse.dropWhile (fun c => !(c == ':'))).reverse.dropLast
  else afterUser

/-- Specification-side predicate, following the words of the spec for the URL
Validator: true exactly for absolute URLs with scheme `http` or `https`
(case-insensitively) and a non-empty host. -/
def spec_valid_url (s : String) : Bool :=
  let l := s.data.map Char.toLower
  if "https://".data.isPrefixOf l then !(spec_host (l.drop 8)).isEmpty
  else if "http://".data.isPrefixOf l then !(spec_host (l.drop 7)).isEmpty
  else false

/-! ## Correctness of the derivative matcher -/

theorem rxMatch_nil (r : Rx) : rxMatch r [] = rxNullable r := rfl

theorem emp_rxMatch (x : List Char) : rxMatch .emp x = false := by
  induction x with
  | nil => rfl
  | cons c cs ih => simpa [rxMatch, rxDeriv] using ih

theorem eps_rxMatch (x : List Char) : rxMatch .eps x = true ↔ x = [] := by
  cases x with
  | nil => simp [rxMatch, rxNullable]
  | cons c cs => simp [rxMatch, rxDeriv, emp_rxMatch]

theorem cls_rxMatch (p : Char → Bool) (x : List Char) :
    rxMatch (.cls p) x = true ↔ ∃ c, x = [c] ∧ p c = true := by
  cases x with
  | nil => simp [rxMatch, rxNullable]
  | cons c cs =>
    simp only [rxMatch, rxDeriv]
    by_cases h : p c
    · rw [if_pos h, eps_rxMatch]
      constructor
      · intro hcs
        subst hcs
        exact ⟨c, rfl, h⟩
      · rintro ⟨d, hd, _⟩
        exact (List.cons_eq_cons.mp hd).2
    · rw [if_neg h]
      simp only [emp_rxMatch]
      constructor
      · intro hf; exact absurd hf (by simp)
      · rintro ⟨d, hd, hpd⟩
        exact absurd ((List.cons_eq_cons.mp hd).1 ▸ hpd) h

theorem alt_rxMatch (r1 r2 : Rx) (x : List Char) :
    rxMatch (.alt r1 r2) x = true ↔ rxMatch r1 x = true ∨ rxMatch r2 x = true := by
  induction x generalizing r1 r2 with
  | nil => simp [rxMatch, rxNullable, Bool.or_eq_true]
  | cons c cs ih => simpa [rxMatch, rxDeriv] using ih (rxDeriv r1 c) (rxDeriv r2 c)

theorem cat_rxMatch (r1 r2 : Rx) (x : List Char) :
    rxMatch (.cat r1 r2) x = true ↔
      ∃ t u, x = t ++ u ∧ rxMatch r1 t = true ∧ rxMatch r2 u = true := by
  induction x generalizing r1 r2 with
  | nil =>
    simp only [rxMatch, rxNullable, Bool.and_eq_true]
    constructor
    · rintro ⟨h1, h2⟩; exact ⟨[], [], rfl, h1, h2⟩
    · rintro ⟨t, u, h, h1, h2⟩
      obtain ⟨ht, hu⟩ := List.append_eq_nil.mp h.symm
      subst ht; subst hu
      exact ⟨h1, h2⟩
  | cons c cs ih =>
    simp only [rxMatch, rxDeriv]
    by_cases hn : rxNullable r1
    · rw [if_pos hn, alt_rxMatch, ih]
      constructor
      · rintro (⟨t, u, rfl, h1, h2⟩ | h)
        · exact ⟨c :: t, u, rfl, h1, h2⟩
        · exact ⟨[], c :: cs, rfl, hn, h⟩
      · rintro ⟨t, u, heq, h1, h2⟩
        cases t with
        | nil => right; rw [List.nil_append] at heq; rw [← heq] at h2; exact h2
        | cons b t2 =>
          left
          rw [List.cons_append] at heq
          injection heq with hb ht
          subst hb
          exact ⟨t2, u, ht, h1, h2⟩
    · rw [if_neg hn, ih]
      constructor
      · rintro ⟨t, u, rfl, h1, h2⟩
        exact ⟨c :: t, u, rfl, h1, h2⟩
      · rintro ⟨t, u, heq, h1, h2⟩
        cases t with
        | nil => exact absurd h1 (by simpa [rxMatch_nil] using hn)
        | cons b t2 =>
          rw [List.cons_append] at heq
          injection heq with hb ht
          subst hb
          exact ⟨t2, u, ht, h1, h2⟩

theorem litL_rxMatch (l x : List Char) : rxMatch (rxLitL l) x = true ↔ x = l := by
  induction l generalizing x with
  | nil => simpa [rxLitL] using eps_rxMatch x
  | cons c cs ih =>
    simp only [rxLitL]
    rw [cat_rxMatch]
    constructor
    · rintro ⟨t, u, rfl, h1, h2⟩
      obtain ⟨d, rfl, hd⟩ := (cls_rxMatch _ t).mp h1
      have hdc : d = c := by simpa using hd
      subst hdc
      rw [ih] at h2
      rw [h2]
      rfl
    · rintro rfl
      exact ⟨[c], cs, rfl, (cls_rxMatch _ _).mpr ⟨c, rfl, by simp⟩, (ih cs).mpr rfl⟩

theorem rxOpt_rxMatch (r : Rx) (x : List Char) :
    rxMatch (rxOpt r) x = true ↔ rxMatch r x = true ∨ x = [] := by
  unfold rxOpt
  rw [alt_rxMatch, eps_rxMatch]

/-! ## Structure of the accepted URL language -/

theorem rxScheme_rxMatch (x : List Char) :
    rxMatch rxScheme x = true ↔
      x = "http://".data ∨ x = "https://".data ∨ x = "ftp://".data := by
  constructor
  · intro h
    unfold rxScheme at h
    rw [cat_rxMatch] at h
    obtain ⟨t, u, rfl, h1, h2⟩ := h
    rw [rxLit, litL_rxMatch] at h2
    subst h2
    rcases (alt_rxMatch _ _ t).mp h1 with h | h
    · rw [cat_rxMatch] at h
      obtain ⟨a, b, rfl, ha, hb⟩ := h
      rw [rxLit, litL_rxMatch] at ha
      subst ha
      rcases (rxOpt_rxMatch _ b).mp hb with hb | hb
      · obtain ⟨d, rfl, hd⟩ := (cls_rxMatch _ b).mp hb
        have hds : d = 's' := by simpa [rxChar] using hd
        subst hds
        right; left; rfl
      · subst hb
        left; rfl
    · rw [rxLit, litL_rxMatch] at h
      subst h
      right; right; rfl
  · rintro (rfl | rfl | rfl) <;> decide

theorem rxAfterScheme_not_nil (u : List Char) (h : rxMatch rxAfterScheme u = true) :
    u ≠ [] := by
  intro hu
  subst hu
  exact absurd h (by decide)

/-- Soundness of the embedded `validators.url` pattern: an accepted string is
a scheme `http://`, `https://` or `ftp://` (up to ASCII case) followed by a
non-empty remainder. -/
theorem validators_url_sound (s : String) (h : validators_url s = true) :
    ∃ pre rest, pre ∈ ["http://", "https://", "ftp://"] ∧
      s.data.map Char.toLower = pre.data ++ rest ∧ rest ≠ [] := by
  unfold validators_url rxUrl at h
  rw [cat_rxMatch] at h
  obtain ⟨t, u, heq, h1, h2⟩ := h
  have hu := rxAfterScheme_not_nil u h2
  rcases (rxScheme_rxMatch t).mp h1 with rfl | rfl | rfl
  · exact ⟨"http://", u, by simp, heq, hu⟩
  · exact ⟨"https://", u, by simp, heq, hu⟩
  · exact ⟨"ftp://", u, by simp, heq, hu⟩

/-! ## Retry-loop facts -/

theorem fetchFrom_forced (code : Nat) (body : String) (forcelist : List Nat)
    (hc : code ∈ forcelist) :
    ∀ t k, fetchFrom (fun _ => .response code body) forcelist k t =
      (.retryError, k + t + 1) := by
  intro t
  induction t with
  | zero => intro k; simp [fetchFrom, hc]
  | succ t ih =>
    intro k
    simp only [fetchFrom, if_pos hc]
    rw [ih (k + 1)]
    congr 1
    omega

/-- A URL answering a forced status on every attempt: the retry loop performs
`total + 1` network attempts and raises `RetryError`. -/
theorem fetch_forced (code : Nat) (body : String) (forcelist : List Nat)
    (hc : code ∈ forcelist) (total : Nat) :
    fetch (fun _ => .response code body) total forcelist = (.retryError, total + 1) := by
  rw [fetch, fetchFrom_forced code body forcelist hc total 0]
  congr 1
  omega

/-- A first attempt answering a status outside the forcelist is returned at
once: one network attempt. -/
theorem fetch_first_ok (server : Nat → AttemptResult) (code : Nat) (body : String)
    (forcelist : List Nat) (total : Nat)
    (h0 : server 0 = .response code body) (hc : code ∉ forcelist) :
    fetch server total forcelist = (.ok code body, 1) := by
  cases total with
  | zero => simp [fetch, fetchFrom, h0, hc]
  | succ t => simp [fetch, fetchFrom, h0, hc]

/-! ## Batch-run facts -/

theorem runAll_length (urls : List String) (net : String → Nat → AttemptResult)
    (session : Session) : (runAll urls net session).length = urls.length := by
  induction urls generalizing session with
  | nil => rfl
  | cons u rest ih => simp [runAll, ih]

theorem rsplitTail_append_slash (t : List Char) :
    rsplitTail (t ++ ['/']) = some [] := by
  induction t with
  | nil => rfl
  | cons c cs ih => simp [rsplitTail, ih]

/-! ## The claims -/

/-- C1: for a successful download exactly one file is written and its name is
the URL's final path segment, but the write is not placed in the destination
directory passed to the run: `main` checks that the directory exists and then
never hands it to `download` (nor changes the working directory), so the file
path is the bare segment, relative to the process working directory, for
every destination.  At the failing input — destination `downloads`, one URL
`http://example.com/a.png` answered with status 200 and body `PNG` — the
single write goes to path `a.png`, not `downloads/a.png`. -/
theorem C1_write_ignores_destination :
    (∀ d1 d2 urls net, mainWrites d1 urls net = mainWrites d2 urls net) ∧
    mainWrites "downloads" ["http://example.com/a.png"]
      (fun _ _ => .response 200 "PNG") = [("a.png", "PNG")] := by
  exact ⟨fun d1 d2 urls net => rfl, by decide⟩

/-- C2 counterexample: a valid URL answering 500 on every attempt exhausts
the retry budget, `session.get` raises `requests.exceptions.RetryError`,
`download` catches only `ConnectionError`, so the exception escapes the
fetch/classify boundary and nothing is logged for the URL. -/
theorem C2_counterexample :
    (download "http://example.com/a.png" MAX_RETRY_FOR_SESSION BACK_OFF_FACTOR
        ERROR_CODES Session.new (fun _ => .response 500 "ERR")).exit =
      .raisedRetryError ∧
    (download "http://example.com/a.png" MAX_RETRY_FOR_SESSION BACK_OFF_FACTOR
        ERROR_CODES Session.new (fun _ => .response 500 "ERR")).logs = [] := by
  constructor <;> decide

/-- C2 amended: the boundary converts only transport connection failures into
a logged per-URL outcome; an exhausted-retry HTTP failure raises `RetryError`
past `download` with nothing logged. -/
theorem C2_fetch_boundary (url : String) (retries : Nat) (bof : ℚ)
    (session : Session) (server : Nat → AttemptResult)
    (hv : validators_url url = true) :
    ((fetch server retries ERROR_CODES).1 = .connectionError →
      (download url retries bof ERROR_CODES session server).exit = .returned ∧
      (download url retries bof ERROR_CODES session server).logs =
        [.connectionError url]) ∧
    ((fetch server retries ERROR_CODES).1 = .retryError →
      (download url retries bof ERROR_CODES session server).exit =
        .raisedRetryError ∧
      (download url retries bof ERROR_CODES session server).logs = []) := by
  unfold download
  rw [if_neg (by simp [hv])]
  rcases hfe : fetch server retries ERROR_CODES with ⟨res, n⟩
  constructor
  · intro h1
    cases res with
    | ok code body => simp at h1
    | connectionError => exact ⟨rfl, rfl⟩
    | retryError => simp at h1
  · intro h2
    cases res with
    | ok code body => simp at h2
    | connectionError => simp at h2
    | retryError => exact ⟨rfl, rfl⟩

theorem C2_fetch_boundary_witness :
    ((download "http://example.com/a.png" 2 0 ERROR_CODES Session.new
        (fun _ => .response 503 "ERR")).exit = .raisedRetryError ∧
      (download "http://example.com/a.png" 2 0 ERROR_CODES Session.new
        (fun _ => .response 503 "ERR")).logs = []) :=
  (C2_fetch_boundary "http://example.com/a.png" 2 0 Session.new
      (fun _ => .response 503 "ERR") (by decide)).2 (by decide)

/-- C3 counterexample: with the default policy (`MAX_RETRY_FOR_SESSION = 5`)
and a URL answering 500 on every attempt, six network attempts occur, not
five — `Retry(total=5)` counts five retries beyond the initial attempt — and
the run ends in a raised `RetryError`, not a logged outcome. -/
theorem C3_counterexample :
    MAX_RETRY_FOR_SESSION = 5 ∧
    (fetch (fun _ => .response 500 "ERR") MAX_RETRY_FOR_SESSION ERROR_CODES).2 = 6 ∧
    (download "http://example.com/a.png" MAX_RETRY_FOR_SESSION BACK_OFF_FACTOR
        ERROR_CODES Session.new (fun _ => .response 500 "ERR")).attempts = 6 := by
  refine ⟨rfl, by decide, by decide⟩

/-- C3 amended: for a URL answering a general retryable status on every
attempt, exactly `retries + 1` network attempts occur — the initial attempt
is outside the `total=retries` budget — and the exhaustion surfaces as a
`RetryError` escaping `download` uncaught, with nothing logged. -/
theorem C3_retry_budget (url : String) (retries code : Nat) (body : String)
    (bof : ℚ) (session : Session)
    (hv : validators_url url = true) (hc : code ∈ ERROR_CODES) :
    fetch (fun _ => .response code body) retries ERROR_CODES =
      (.retryError, retries + 1) ∧
    (download url retries bof ERROR_CODES session
        (fun _ => .response code body)).attempts = retries + 1 ∧
    (download url retries bof ERROR_CODES session
        (fun _ => .response code body)).exit = .raisedRetryError ∧
    (download url retries bof ERROR_CODES session
        (fun _ => .response code body)).logs = [] := by
  have hf := fetch_forced code body ERROR_CODES hc retries
  refine ⟨hf, ?_⟩
  unfold download
  rw [if_neg (by simp [hv]), hf]
  exact ⟨rfl, rfl, rfl⟩

theorem C3_retry_budget_witness :
    (fetch (fun _ => .response 502 "ERR") 3 ERROR_CODES = (.retryError, 4) ∧
      (download "http://example.com/a.png" 3 0 ERROR_CODES Session.new
        (fun _ => .response 502 "ERR")).attempts = 4 ∧
      (download "http://example.com/a.png" 3 0 ERROR_CODES Session.new
        (fun _ => .response 502 "ERR")).exit = .raisedRetryError ∧
      (download "http://example.com/a.png" 3 0 ERROR_CODES Session.new
        (fun _ => .response 502 "ERR")).logs = []) :=
  C3_retry_budget "http://example.com/a.png" 3 502 "ERR" 0 Session.new
    (by decide) (by decide)

/-- C4: a URL answering 403 or 404 is fetched exactly once — the special
codes are outside `ERROR_CODES`, so the mounted `Retry` never retries them —
the failure is logged with the code and the URL, no file is written, and
`download` returns normally. -/
theorem C4_special_code_single_attempt (url : String) (code : Nat) (body : String)
    (retries : Nat) (bof : ℚ) (session : Session) (server : Nat → AttemptResult)
    (hv : validators_url url = true) (hc : code ∈ SPECIAL_ERROR_CODES)
    (hs : ∀ k, server k = .response code body) :
    (download url retries bof ERROR_CODES session server).attempts = 1 ∧
    (download url retries bof ERROR_CODES session server).logs =
      [.statusError code url] ∧
    (download url retries bof ERROR_CODES session server).writes = [] ∧
    (download url retries bof ERROR_CODES session server).exit = .returned := by
  have hnc : code ∉ ERROR_CODES := by
    have hc2 := hc
    simp only [SPECIAL_ERROR_CODES, List.mem_cons, List.not_mem_nil, or_false] at hc2
    rcases hc2 with rfl | rfl <;> decide
  have hf := fetch_first_ok server code body ERROR_CODES retries (hs 0) hnc
  unfold download
  rw [if_neg (by simp [hv]), hf]
  simp [hc]

theorem C4_special_code_witness :
    ((download "http://example.com/a.png" 5 0 ERROR_CODES Session.new
        (fun _ => .response 404 "NF")).attempts = 1 ∧
      (download "http://example.com/a.png" 5 0 ERROR_CODES Session.new
        (fun _ => .response 404 "NF")).logs =
          [.statusError 404 "http://example.com/a.png"] ∧
      (download "http://example.com/a.png" 5 0 ERROR_CODES Session.new
        (fun _ => .response 404 "NF")).writes = [] ∧
      (download "http://example.com/a.png" 5 0 ERROR_CODES Session.new
        (fun _ => .response 404 "NF")).exit = .returned) :=
  C4_special_code_single_attempt "http://example.com/a.png" 404 "NF" 5 0 Session.new
    (fun _ => .response 404 "NF") (by decide) (by decide) (fun _ => rfl)

/-- C5 counterexample: the retryable set handed to `Retry` does not equal the
set of all 4xx/5xx codes minus the special codes — 419 is a 4xx code outside
the special set, yet it is not in `ERROR_CODES`, because the comprehension
ranges only over the keys of the `requests` status-code table. -/
theorem C5_counterexample :
    ¬ (∀ code : Nat, code ∈ ERROR_CODES ↔ spec_retryable code = true) := by
  intro h
  exact absurd ((h 419).mpr (by decide)) (by decide)

/-- C5 amended: `ERROR_CODES` equals the status codes registered in the
`requests` status-code table that are at least 400, minus the special codes —
a proper subset of all 4xx/5xx (419 and 508 are missing) — and it is computed
once at module load, before any policy is constructed, never per attempt. -/
theorem C5_policy_set :
    (∀ code : Nat, code ∈ ERROR_CODES ↔
      (code ∈ requests_status_codes ∧ 400 ≤ code ∧ code ∉ SPECIAL_ERROR_CODES)) ∧
    403 ∉ ERROR_CODES ∧ 404 ∉ ERROR_CODES ∧
    429 ∈ ERROR_CODES ∧ 500 ∈ ERROR_CODES ∧ 502 ∈ ERROR_CODES ∧ 503 ∈ ERROR_CODES ∧
    spec_retryable 419 = true ∧ 419 ∉ ERROR_CODES ∧
    spec_retryable 508 = true ∧ 508 ∉ ERROR_CODES := by
  refine ⟨?_, by decide, by decide, by decide, by decide, by decide, by decide,
    by decide, by decide, by decide, by decide⟩
  intro code
  simp [ERROR_CODES, List.mem_filter, SPECIAL_ERROR_CODES, and_assoc]

theorem C5_policy_set_witness :
    500 ∈ ERROR_CODES ∧
      (500 ∈ requests_status_codes ∧ 400 ≤ 500 ∧ 500 ∉ SPECIAL_ERROR_CODES) :=
  ⟨(C5_policy_set.1 500).mpr (by decide), by decide⟩

/-- C6 counterexample: `ftp://example.com` is not an http/https URL — the
specification-side predicate rejects it — yet the validator accepts it, so
the validator does not return false for every non-http/https string. -/
theorem C6_counterexample :
    validators_url "ftp://example.com" = true ∧
    spec_valid_url "ftp://example.com" = false := by
  constructor <;> decide

/-- C6 amended: the validator accepts only strings that start
(case-insensitively) with `http://`, `https://` or `ftp://` followed by a
non-empty remainder — so it accepts well-formed ftp URLs in addition to
http/https ones — and its host grammar is stricter than "non-empty": a
single-label host other than `localhost` is rejected, so `http://x/a.png`, a
well-formed absolute http URL with non-empty host, returns false. -/
theorem C6_validator_language :
    (∀ s : String, validators_url s = true →
      ∃ pre rest, pre ∈ ["http://", "https://", "ftp://"] ∧
        s.data.map Char.toLower = pre.data ++ rest ∧ rest ≠ []) ∧
    validators_url "http://example.com/a.png" = true ∧
    validators_url "https://example.com/a.png" = true ∧
    validators_url "ftp://example.com" = true ∧
    validators_url "http://x/a.png" = false ∧
    validators_url "http://" = false ∧
    validators_url "" = false ∧
    validators_url "example.com" = false := by
  refine ⟨validators_url_sound, ?_, ?_, ?_, ?_, ?_, ?_, ?_⟩ <;> decide

theorem C6_validator_language_witness :
    ∃ pre rest, pre ∈ ["http://", "https://", "ftp://"] ∧
      "ftp://example.com".data.map Char.toLower = pre.data ++ rest ∧ rest ≠ [] :=
  C6_validator_language.1 "ftp://example.com" (by decide)

/-- C7: a string failing validation short-circuits the task: the only effect
is the invalid-URL log line — no network attempt, no write, no session
change, a normal return. -/
theorem C7_invalid_short_circuit (url : String) (retries : Nat) (bof : ℚ)
    (sfl : List Nat) (session : Session) (server : Nat → AttemptResult)
    (hv : validators_url url = false) :
    download url retries bof sfl session server =
      ⟨[.invalidURL url], [], 0, .returned, session⟩ := by
  unfold download
  rw [if_pos hv]

theorem C7_invalid_short_circuit_witness :
    download "not a url" 5 0 ERROR_CODES Session.new (fun _ => .response 200 "X") =
      ⟨[.invalidURL "not a url"], [], 0, .returned, Session.new⟩ :=
  C7_invalid_short_circuit "not a url" 5 0 ERROR_CODES Session.new
    (fun _ => .response 200 "X") (by decide)

/-- C8 counterexample: the shared session is not left unchanged by a download
call — the call mounts fresh adapters carrying its retry policy, so after one
successful download on a fresh session the session differs from what it was. -/
theorem C8_counterexample :
    (download "http://example.com/a.png" MAX_RETRY_FOR_SESSION BACK_OFF_FACTOR
        ERROR_CODES Session.new (fun _ => .response 200 "PNG")).session ≠
      Session.new := by
  intro h
  have h2 := congrArg
    (fun s : Session => s.adapters.map (fun kv => kv.2.total)) h
  exact absurd h2 (by decide)

/-- C8 amended: the session is shared but not read-only: every download call
that passes validation replaces the session's `https://` and `http://`
adapters with adapters carrying that call's retry policy, exactly as two
`Session.mount` calls; the policy values passed in are themselves immutable
and appear unchanged in the mounted adapters. -/
theorem C8_session_mounted (url : String) (retries : Nat) (bof : ℚ)
    (sfl : List Nat) (session : Session) (server : Nat → AttemptResult)
    (hv : validators_url url = true) :
    (download url retries bof sfl session server).session =
      (session.mount "https://" ⟨retries, bof, sfl⟩).mount "http://"
        ⟨retries, bof, sfl⟩ := by
  unfold download
  rw [if_neg (by simp [hv])]
  rcases hfe : fetch server retries sfl with ⟨res, n⟩
  cases res with
  | connectionError => rfl
  | retryError => rfl
  | ok code body =>
    by_cases hsp : code ∈ SPECIAL_ERROR_CODES
    · simp [hsp]
    · simp only [hsp]
      cases hrt : rsplitTail url.data with
      | none => simp [hrt]
      | some name =>
        by_cases hname : name = [] <;> simp [hrt, hname]

theorem C8_session_mounted_witness :
    (download "http://example.com/a.png" 5 0 ERROR_CODES Session.new
        (fun _ => .response 200 "PNG")).session =
      (Session.new.mount "https://" ⟨5, 0, ERROR_CODES⟩).mount "http://"
        ⟨5, 0, ERROR_CODES⟩ :=
  C8_session_mounted "http://example.com/a.png" 5 0 ERROR_CODES Session.new
    (fun _ => .response 200 "PNG") (by decide)

/-- C9: on an interrupt the scheduler does not stop admitting queued tasks:
every future was submitted before the interrupt can be handled and
`shutdown(wait=False)` cancels nothing, so every task runs and produces an
outcome.  At the failing input — five URLs, interrupt arriving after two
tasks have started — five outcomes are produced, not two, and the moment of
the interrupt does not affect the outcome list at all. -/
theorem C9_interrupt_cancels_nothing :
    (interruptedOutcomes
        ["http://example.com/1.png", "http://example.com/2.png",
         "http://example.com/3.png", "http://example.com/4.png",
         "http://example.com/5.png"] 2 (fun _ _ => .response 200 "X")).length = 5 ∧
    (∀ urls k1 k2 net,
      interruptedOutcomes urls k1 net = interruptedOutcomes urls k2 net) := by
  constructor
  · rw [interruptedOutcomes, runAll_length]
    rfl
  · intro urls k1 k2 net
    rfl

/-- C10: a URL that passes validation and ends in a slash, answered with
status 200, derives the empty file name; `open("", "wb")` raises, so the task
ends by exception with no file written and no logged failure. -/
theorem C10_trailing_slash (url : String) (retries : Nat) (bof : ℚ)
    (session : Session) (server : Nat → AttemptResult) (body : String)
    (t : List Char)
    (hv : validators_url url = true)
    (hslash : url.data = t ++ [Char.ofNat 47])
    (h0 : server 0 = .response 200 body) :
    (download url retries bof ERROR_CODES session server).exit =
      .raisedFileError ∧
    (download url retries bof ERROR_CODES session server).writes = [] ∧
    (download url retries bof ERROR_CODES session server).logs = [] ∧
    fileNameOf url = some "" := by
  have hnc : (200 : Nat) ∉ ERROR_CODES := by decide
  have hf := fetch_first_ok server 200 body ERROR_CODES retries h0 hnc
  have hrs : rsplitTail url.data = some [] := by
    rw [hslash]
    exact rsplitTail_append_slash t
  have hfn : fileNameOf url = some "" := by
    unfold fileNameOf
    rw [hrs]
    rfl
  refine ⟨?_, ?_, ?_, hfn⟩ <;>
    (unfold download
     rw [if_neg (by simp [hv]), hf]
     simp [hrs, SPECIAL_ERROR_CODES])

theorem C10_trailing_slash_witness :
    ((download "http://example.com/" 5 0 ERROR_CODES Session.new
        (fun _ => .response 200 "BODY")).exit = .raisedFileError ∧
      (download "http://example.com/" 5 0 ERROR_CODES Session.new
        (fun _ => .response 200 "BODY")).writes = [] ∧
      (download "http://example.com/" 5 0 ERROR_CODES Session.new
        (fun _ => .response 200 "BODY")).logs = [] ∧
      fileNameOf "http://example.com/" = some "") :=
  C10_trailing_slash "http://example.com/" 5 0 Session.new
    (fun _ => .response 200 "BODY") "BODY" "http://example.com".data
    (by decide) (by decide) rfl
